import Mathlib

/-!
Verification of the dephealth client core: the batch-scan orchestrator
(`src/action/src/scanner.ts`, function `scanDependencies`) and the retrying
request executor with status-code error classification (the api-client
package; its implementation is pinned by `retry.test.ts` and §4.1/§4.2 of
the design document, and is modelled from those here).

Modelling conventions:
- TypeScript objects become Lean structures; `undefined` optional fields
  become `Option`; thrown exceptions become `Except`.
- The remote call `client.scan(batchDeps, ecosystem)` is an oracle
  parameter `oracle : List DepEntry → Except ScanError ScanResult`; each
  chunk is issued exactly once, so a deterministic oracle keyed on the
  chunk's entries captures any sequence of per-chunk outcomes.
- `risk_level` is the four-valued enumeration declared by the api types
  (LOW/MEDIUM/HIGH/CRITICAL); the `data_quality.assessment` field is kept
  as an arbitrary optional string because `scanner.ts` explicitly defends
  against missing/unrecognized values there.
- Network-call counting is modelled by `scanCalls`, which lists the chunk
  requests actually issued, mirroring the control flow of the loop in
  `scanner.ts` (a thrown fatal error exits the loop before later chunks).
-/

namespace DepHealth

/-- Risk level enumeration of a scanned package (api types). -/
inductive RiskLevel
  | LOW
  | MEDIUM
  | HIGH
  | CRITICAL
deriving DecidableEq, Repr

/-- One per-package result, as consumed by `scanner.ts`: the scanner reads
`risk_level` and `data_quality?.assessment`, and passes the rest through.
`data_quality` here is the optional `assessment` string (`none` when the
`data_quality` object or its `assessment` field is absent). -/
structure PackageHealth where
  package : String
  health_score : Nat
  risk_level : RiskLevel
  data_quality : Option String := none
deriving DecidableEq, Repr

/-- Data-quality summary block of an aggregated result (`scanner.ts` lines 197-201). -/
structure DataQualitySummary where
  verified_count : Nat
  partial_count : Nat
  unverified_count : Nat
deriving DecidableEq, Repr

/-- Shape of a scan response / aggregate result (api `ScanResult`). -/
structure ScanResult where
  total : Nat
  critical : Nat
  high : Nat
  medium : Nat
  low : Nat
  packages : List PackageHealth
  not_found : Option (List String) := none
  data_quality : Option DataQualitySummary := none
  verified_risk_count : Option Nat := none
  unverified_risk_count : Option Nat := none
deriving DecidableEq, Repr

/-- `ScanResultWithMeta` of `scanner.ts`: a `ScanResult` plus passthrough
metadata (`format`, `ecosystem`). -/
structure ScanResultWithMeta extends ScanResult where
  format : String
  ecosystem : String
deriving DecidableEq, Repr

/-- Closed set of classified error codes (§4.1, pinned by `retry.test.ts`). -/
inductive ErrorCode
  | invalid_request
  | unauthorized
  | forbidden
  | not_found
  | rate_limited
  | server_error
  | network_error
  | timeout
  | unknown_error
deriving DecidableEq, Repr

/-- An error escaping `client.scan`: either a classified `ApiClientError`
(`.api code message`) or any other thrown value (`.other message`) —
`scanner.ts` distinguishes exactly these two cases via `instanceof`. -/
inductive ScanError
  | api (code : ErrorCode) (message : String)
  | other (message : String)
deriving DecidableEq, Repr

/-- One dependency entry: package name and version range. -/
abbrev DepEntry := String × String

/-! ### Error classifier and retrying executor

The api-client implementation is not vendored in this repository snapshot;
only its test suite is. The two definitions below are modelled from the
spec (§4.1, §4.2) and agree with every case exercised by `retry.test.ts`. -/

/-- Input to the classifier: an HTTP status from a response, or the two
no-response cases (generic transport failure vs. timeout abort). -/
inductive FailureKind
  | status (code : Nat)
  | noResponse
  | aborted
deriving DecidableEq, Repr

/-- Modelled from the spec: the Error Classifier (§4.1). Maps 400/401/403/404/429
to their codes, any 5xx to `server_error`, absence of a response to
`network_error`, a timeout abort to `timeout`, and any other status to
`unknown_error`. Total by construction. -/
def classifyError : FailureKind → ErrorCode
  | .noResponse => .network_error
  | .aborted => .timeout
  | .status s =>
    if s = 400 then .invalid_request
    else if s = 401 then .unauthorized
    else if s = 403 then .forbidden
    else if s = 404 then .not_found
    else if s = 429 then .rate_limited
    else if 500 ≤ s then .server_error
    else .unknown_error

/-- Modelled from the spec: retry eligibility (§4.1): retryable codes are
`rate_limited`, `server_error`, `network_error`, `timeout`. -/
def isRetryable : ErrorCode → Bool
  | .rate_limited => true
  | .server_error => true
  | .network_error => true
  | .timeout => true
  | _ => false

/-- Outcome of one attempt of the executor's network call. -/
inductive AttemptOutcome
  | success
  | failure (f : FailureKind)
deriving DecidableEq, Repr

/-- Modelled from the spec: the attempt loop of the Retrying Request Executor
(§4.2). `outcome i` is the result of the i-th attempt (0-based);
the second argument is the number of retries still allowed. Returns the
number of attempts performed and `none` on success or `some code` on final
failure (the classified code carried by the thrown `ApiClientError`). -/
def runAttempts (outcome : Nat → AttemptOutcome) : Nat → Nat → Nat × Option ErrorCode
  | attempt, 0 =>
    match outcome attempt with
    | .success => (1, none)
    | .failure f => (1, some (classifyError f))
  | attempt, r + 1 =>
    match outcome attempt with
    | .success => (1, none)
    | .failure f =>
      if isRetryable (classifyError f) then
        let rec2 := runAttempts outcome (attempt + 1) r
        (rec2.1 + 1, rec2.2)
      else (1, some (classifyError f))

/-- Modelled from the spec: `execute` performs the initial attempt plus up to
`maxRetries` retries (§4.2). -/
def execute (outcome : Nat → AttemptOutcome) (maxRetries : Nat) : Nat × Option ErrorCode :=
  runAttempts outcome 0 maxRetries

/-! ### Scan orchestrator (`scanner.ts`) -/

/-- `const BATCH_SIZE = 25` (`scanner.ts` line 15). -/
def BATCH_SIZE : Nat := 25

/-- Equality of `Except` values is decidable componentwise. -/
instance {ε α : Type} [DecidableEq ε] [DecidableEq α] : DecidableEq (Except ε α) :=
  fun a b =>
    match a, b with
    | .ok x, .ok y =>
      if h : x = y then .isTrue (by rw [h]) else .isFalse (by simp [h])
    | .error x, .error y =>
      if h : x = y then .isTrue (by rw [h]) else .isFalse (by simp [h])
    | .ok _, .error _ => .isFalse (by simp)
    | .error _, .ok _ => .isFalse (by simp)

/-- Fuel-indexed chunking helper; the fuel is an upper bound on the number of
chunks still to emit (structural recursion keeps the function kernel-reducible). -/
def chunksOfAux (n : Nat) : Nat → List DepEntry → List (List DepEntry)
  | 0, _ => []
  | _, [] => []
  | fuel + 1, x :: xs => ((x :: xs).take n) :: chunksOfAux n fuel ((x :: xs).drop n)

/-- The loop `for (let i = 0; i < depEntries.length; i += BATCH_SIZE)` slices
the entry list into consecutive chunks of at most `n` entries, preserving
order. -/
def chunksOf (n : Nat) (l : List DepEntry) : List (List DepEntry) :=
  chunksOfAux n l.length l

/-- A scan-fatal error: an `ApiClientError` whose code is `rate_limited`,
`unauthorized` or `forbidden` (`scanner.ts` lines 147-150). Any other
error — including every non-`ApiClientError` — is chunk-local. -/
def isFatalError : ScanError → Bool
  | .api code _ =>
    code == ErrorCode.rate_limited || code == ErrorCode.unauthorized ||
      code == ErrorCode.forbidden
  | .other _ => false

/-- The batch loop of `scanner.ts` (lines 131-159): issue each chunk through
the oracle; on success accumulate `packages` and `not_found`; on a fatal
error rethrow (aborting the loop); on any other error count the chunk as
failed and continue. Returns the merged package list, the concatenated
not-found list, and the failed-chunk count. -/
def processChunks (oracle : List DepEntry → Except ScanError ScanResult) :
    List (List DepEntry) → Except ScanError (List PackageHealth × List String × Nat)
  | [] => .ok ([], [], 0)
  | c :: cs =>
    match oracle c with
    | .ok r =>
      match processChunks oracle cs with
      | .ok (ps, nf, k) => .ok (r.packages ++ ps, r.not_found.getD [] ++ nf, k)
      | .error e => .error e
    | .error e =>
      if isFatalError e then .error e
      else
        match processChunks oracle cs with
        | .ok (ps, nf, k) => .ok (ps, nf, k + 1)
        | .error e2 => .error e2

/-- The chunk requests actually issued by the batch loop: a fatal error stops
the loop, so later chunks are never requested; any other outcome lets the
loop continue. -/
def issuedChunks (oracle : List DepEntry → Except ScanError ScanResult) :
    List (List DepEntry) → List (List DepEntry)
  | [] => []
  | c :: cs =>
    match oracle c with
    | .ok _ => c :: issuedChunks oracle cs
    | .error e => if isFatalError e then [c] else c :: issuedChunks oracle cs

/-- A chunk outcome that lets the batch loop continue: a success, or a
non-fatal error. -/
def chunkOutcomeOk (oracle : List DepEntry → Except ScanError ScanResult)
    (c : List DepEntry) : Bool :=
  match oracle c with
  | .ok _ => true
  | .error e => !isFatalError e

/-- Whether a chunk outcome is an error (of any kind). -/
def isErrorOutcome (o : Except ScanError ScanResult) : Bool :=
  match o with
  | .ok _ => false
  | .error _ => true

/-- The packages contributed by a chunk (empty for a failed chunk). -/
def chunkPackages (oracle : List DepEntry → Except ScanError ScanResult)
    (c : List DepEntry) : List PackageHealth :=
  match oracle c with
  | .ok r => r.packages
  | .error _ => []

/-- The not-found names contributed by a chunk (empty for a failed chunk or a
chunk without the optional field). -/
def chunkNotFound (oracle : List DepEntry → Except ScanError ScanResult)
    (c : List DepEntry) : List String :=
  match oracle c with
  | .ok r => r.not_found.getD []
  | .error _ => []

/-- The effective assessment string of a package, mirroring
`pkg.data_quality?.assessment || "UNVERIFIED"` (`scanner.ts` line 173):
a missing field — or the falsy empty string — defaults to `"UNVERIFIED"`. -/
def effAssessment (p : PackageHealth) : String :=
  match p.data_quality with
  | none => "UNVERIFIED"
  | some a => if a = "" then "UNVERIFIED" else a

/-- `pkg.risk_level === "HIGH" || pkg.risk_level === "CRITICAL"` (`scanner.ts` line 174). -/
def isHighRisk (p : PackageHealth) : Bool :=
  p.risk_level == RiskLevel.HIGH || p.risk_level == RiskLevel.CRITICAL

/-- The five data-quality counters of the aggregation loop (`scanner.ts` lines 166-170). -/
structure DQState where
  verifiedCount : Nat
  partialCount : Nat
  unverifiedCount : Nat
  verifiedRiskCount : Nat
  unverifiedRiskCount : Nat
deriving DecidableEq, Repr

/-- One iteration of the data-quality loop (`scanner.ts` lines 172-186). -/
def dqStep (s : DQState) (p : PackageHealth) : DQState :=
  let a := effAssessment p
  let hr := isHighRisk p
  if a = "VERIFIED" then
    { s with
      verifiedCount := s.verifiedCount + 1
      verifiedRiskCount := s.verifiedRiskCount + (if hr then 1 else 0) }
  else if a = "PARTIAL" then
    { s with
      partialCount := s.partialCount + 1
      unverifiedRiskCount := s.unverifiedRiskCount + (if hr then 1 else 0) }
  else
    { s with
      unverifiedCount := s.unverifiedCount + 1
      unverifiedRiskCount := s.unverifiedRiskCount + (if hr then 1 else 0) }

/-- The whole data-quality loop over the merged package list. -/
def dqCounts (pkgs : List PackageHealth) : DQState :=
  pkgs.foldl dqStep ⟨0, 0, 0, 0, 0⟩

/-- The package is classified VERIFIED by the aggregation loop. -/
def pVer (p : PackageHealth) : Bool := effAssessment p == "VERIFIED"

/-- The package is classified PARTIAL by the aggregation loop. -/
def pPar (p : PackageHealth) : Bool := effAssessment p == "PARTIAL"

/-- The package falls into the UNVERIFIED bucket of the aggregation loop. -/
def pUnv (p : PackageHealth) : Bool := !(pVer p) && !(pPar p)

/-- Spec-side restatement: a package counts as UNVERIFIED when its
data-quality assessment is missing or is any string other than VERIFIED or
PARTIAL (so unrecognized values default to UNVERIFIED). -/
def countedUnverified (p : PackageHealth) : Bool :=
  match p.data_quality with
  | none => true
  | some a => !(a == "VERIFIED") && !(a == "PARTIAL")

/-- The aggregation invariant of the spec:
`total == critical + high + medium + low == length(packages)`. -/
def aggInvariant (r : ScanResult) : Prop :=
  r.total = r.critical + r.high + r.medium + r.low ∧ r.total = r.packages.length

instance (r : ScanResult) : Decidable (aggInvariant r) := by
  unfold aggInvariant
  infer_instance

/-- The aggregate result built after the batch loop (`scanner.ts` lines 189-206):
severity counts are recomputed by filtering the merged package list;
`not_found` is `undefined` when the concatenated list is empty. -/
def aggregate (pkgs : List PackageHealth) (notFound : List String)
    (format ecosystem : String) : ScanResultWithMeta :=
  { total := pkgs.length
    critical := (pkgs.filter (fun p => p.risk_level == RiskLevel.CRITICAL)).length
    high := (pkgs.filter (fun p => p.risk_level == RiskLevel.HIGH)).length
    medium := (pkgs.filter (fun p => p.risk_level == RiskLevel.MEDIUM)).length
    low := (pkgs.filter (fun p => p.risk_level == RiskLevel.LOW)).length
    packages := pkgs
    not_found := if notFound.length > 0 then some notFound else none
    data_quality := some ⟨(dqCounts pkgs).verifiedCount, (dqCounts pkgs).partialCount,
      (dqCounts pkgs).unverifiedCount⟩
    verified_risk_count := some (dqCounts pkgs).verifiedRiskCount
    unverified_risk_count := some (dqCounts pkgs).unverifiedRiskCount
    format := format
    ecosystem := ecosystem }

/-- The scan phase of `scanDependencies` (`scanner.ts` lines 98-207), given the
already-parsed dependency entries. Empty mapping: immediate zero result.
At most `BATCH_SIZE` entries: one request, result returned with metadata
spread in; an `ApiClientError` rethrown unchanged, any other error wrapped
with the `Failed to scan dependencies:` context message. Larger: the batch
loop followed by aggregation. -/
def scanDependencies (deps : List DepEntry)
    (oracle : List DepEntry → Except ScanError ScanResult)
    (format ecosystem : String) : Except ScanError ScanResultWithMeta :=
  if deps.length = 0 then
    .ok { total := 0, critical := 0, high := 0, medium := 0, low := 0, packages := []
          format := format, ecosystem := ecosystem }
  else if deps.length ≤ BATCH_SIZE then
    match oracle deps with
    | .ok r => .ok { r with format := format, ecosystem := ecosystem }
    | .error (.api code m) => .error (.api code m)
    | .error (.other m) => .error (.other ("Failed to scan dependencies: " ++ m))
  else
    match processChunks oracle (chunksOf BATCH_SIZE deps) with
    | .error e => .error e
    | .ok (pkgs, notFound, _) => .ok (aggregate pkgs notFound format ecosystem)

/-- The network requests issued by the scan phase, in order. -/
def scanCalls (deps : List DepEntry)
    (oracle : List DepEntry → Except ScanError ScanResult) : List (List DepEntry) :=
  if deps.length = 0 then []
  else if deps.length ≤ BATCH_SIZE then [deps]
  else issuedChunks oracle (chunksOf BATCH_SIZE deps)

/-- The failed-batch count reported out-of-band via `core.warning`
(`scanner.ts` lines 129, 153, 161-163); it is not part of the returned
`ScanResult`. -/
def scanWarn (deps : List DepEntry)
    (oracle : List DepEntry → Except ScanError ScanResult) : Nat :=
  if deps.length = 0 then 0
  else if deps.length ≤ BATCH_SIZE then 0
  else
    match processChunks oracle (chunksOf BATCH_SIZE deps) with
    | .ok (_, _, k) => k
    | .error _ => 0

/-! ### Path validation phase (`scanner.ts` lines 42-90)

`realpathSync` output is canonical (symlinks resolved, absolute). An
absolute POSIX path is modelled as its list of segments; `node:path`'s
`relative` on two such paths drops the longest common segment prefix and
emits one `..` per remaining segment of the base. -/

/-- Drop the longest common prefix of two segment lists, returning the two
remainders. -/
def dropCommon : List String → List String → List String × List String
  | a :: as, b :: bs => if a = b then dropCommon as bs else (a :: as, b :: bs)
  | as, bs => (as, bs)

/-- JavaScript `String.prototype.startsWith`: character-wise prefix test. -/
def jsStartsWith (s pre : String) : Bool := pre.data.isPrefixOf s.data

/-- Join path segments with the POSIX separator, as `node:path` renders a
relative path. -/
def joinSegs : List String → String
  | [] => ""
  | [s] => s
  | s :: rest => s ++ "/" ++ joinSegs rest

/-- `relative(from, to)` of `node:path` for canonical absolute paths, as the
joined string the TypeScript code inspects. -/
def nodeRelative (fromPath toPath : List String) : String :=
  let rest := dropCommon fromPath toPath
  joinSegs (rest.1.map (fun _ => "..") ++ rest.2)

/-- `isAbsolute` of `node:path` (POSIX): the path starts with a separator. -/
def isAbsolutePath (s : String) : Bool := jsStartsWith s "/"

/-- What the filesystem reports about the input path: whether the resolved
path exists, the canonical real path (`none` when `realpathSync` throws),
and the stat result. -/
structure PathEnv where
  pathExists : Bool
  realPath : Option (List String)
  isFile : Bool
  isDir : Bool

/-- The distinguishable failures of the path phase. -/
inductive PathError
  | notExist
  | cannotResolve
  | outsideWorkspace
  | notFileOrDir
deriving DecidableEq, Repr

/-- The path-resolution and symlink-validation phase of `scanDependencies`
(`scanner.ts` lines 42-82): existence check, `realpathSync` (throwing
`Cannot resolve path` on failure), the workspace-escape guard on
`relative(workspace, realPath)`, then the file/directory dispatch. On
success it returns the real path that the dependency reader is invoked
on. -/
def validatePath (workspace : List String) (env : PathEnv) :
    Except PathError (List String) :=
  if !env.pathExists then .error .notExist
  else
    match env.realPath with
    | none => .error .cannotResolve
    | some rp =>
      if jsStartsWith (nodeRelative workspace rp) ".." ||
          isAbsolutePath (nodeRelative workspace rp) then .error .outsideWorkspace
      else if env.isFile then .ok rp
      else if env.isDir then .ok rp
      else .error .notFileOrDir

/-- Network requests issued by the full `scanDependencies` pipeline: the
client is only constructed after the path phase succeeds, so a path-phase
error issues no request. -/
def scanPipelineCalls (workspace : List String) (env : PathEnv)
    (deps : List DepEntry)
    (oracle : List DepEntry → Except ScanError ScanResult) : List (List DepEntry) :=
  match validatePath workspace env with
  | .error _ => []
  | .ok _ => scanCalls deps oracle

/-! ### Concrete scenarios

Fixtures mirroring the repository's own test scenarios
(`scanner.test.ts`, "Batch Processing" and the spec's §8 scenarios). -/

/-- 30 dependencies, forcing two chunks of 25 and 5. -/
def demoDeps : List DepEntry :=
  (List.range 30).map (fun i => ("pkg-" ++ toString i, "^1.0.0"))

/-- Risk level of the i-th package of the first demo chunk:
1 CRITICAL, 2 HIGH, 10 MEDIUM, 12 LOW. -/
def riskAt1 (i : Nat) : RiskLevel :=
  if i = 0 then .CRITICAL else if i < 3 then .HIGH else if i < 13 then .MEDIUM else .LOW

/-- The 25 packages returned for the first demo chunk. -/
def chunk1Packages : List PackageHealth :=
  (List.range 25).map (fun i =>
    { package := "pkg-" ++ toString i, health_score := 50 + i, risk_level := riskAt1 i })

/-- Risk level of the i-th package of the second demo chunk:
1 HIGH, 2 MEDIUM, 2 LOW. -/
def riskAt2 (i : Nat) : RiskLevel :=
  if i = 0 then .HIGH else if i < 3 then .MEDIUM else .LOW

/-- The 5 packages returned for the second demo chunk. -/
def chunk2Packages : List PackageHealth :=
  (List.range 5).map (fun i =>
    { package := "pkg-" ++ toString (25 + i), health_score := 60 + i, risk_level := riskAt2 i })

/-- First chunk response. Its own severity-count fields are deliberately
bogus (99), to demonstrate that aggregation recomputes the counts from the
merged package list rather than trusting per-chunk subtotals. -/
def chunk1Result : ScanResult :=
  { total := 25, critical := 99, high := 99, medium := 99, low := 99, packages := chunk1Packages }

/-- Second chunk response. -/
def chunk2Result : ScanResult :=
  { total := 5, critical := 0, high := 1, medium := 2, low := 2, packages := chunk2Packages }

/-- Oracle for the 30-dependency scenario: both chunks succeed. -/
def demoOracle : List DepEntry → Except ScanError ScanResult :=
  fun c => if c.length = 25 then .ok chunk1Result else .ok chunk2Result

/-- Oracle whose second chunk fails with `rate_limited` (scan-fatal). -/
def fatalOracle : List DepEntry → Except ScanError ScanResult :=
  fun c => if c.length = 25 then .ok chunk1Result else .error (.api .rate_limited "Rate limited")

/-- Oracle whose second chunk fails with `server_error` (chunk-local). -/
def mixedOracle : List DepEntry → Except ScanError ScanResult :=
  fun c =>
    if c.length = 25 then .ok chunk1Result
    else .error (.api .server_error "Internal Server Error")

/-- Oracle reporting the same not-found name from every chunk. -/
def dupOracle : List DepEntry → Except ScanError ScanResult :=
  fun _ =>
    .ok { total := 0, critical := 0, high := 0, medium := 0, low := 0, packages := []
          not_found := some ["dup-pkg"] }

/-- 20 dependencies: small enough for the single-chunk path. -/
def smallDeps : List DepEntry :=
  (List.range 20).map (fun i => ("pkg-" ++ toString i, "^1.0.0"))

/-- Single-chunk oracle returning a response whose own counts violate the
aggregation invariant (`total` 20 but an empty package list) — exactly the
response mocked by the repository's "does not batch when <= 25 packages"
test. -/
def badOracle : List DepEntry → Except ScanError ScanResult :=
  fun _ => .ok { total := 20, critical := 0, high := 0, medium := 0, low := 20, packages := [] }

/-- Single-chunk oracle failing with a non-`ApiClientError` value. -/
def failOracle : List DepEntry → Except ScanError ScanResult :=
  fun _ => .error (.other "boom")

/-- 26 dependencies: just over one chunk. -/
def deps26 : List DepEntry :=
  (List.range 26).map (fun i => ("pkg-" ++ toString i, "^1.0.0"))

/-- Oracle returning empty successful responses for every chunk. -/
def emptyOkOracle : List DepEntry → Except ScanError ScanResult :=
  fun _ => .ok { total := 0, critical := 0, high := 0, medium := 0, low := 0, packages := [] }

/-- Five packages exercising every data-quality classification: VERIFIED
high-risk, PARTIAL high-risk, missing assessment on a high-risk package,
an unrecognized assessment, and an empty (falsy) assessment. -/
def dqPackages : List PackageHealth :=
  [ { package := "a", health_score := 10, risk_level := .CRITICAL, data_quality := some "VERIFIED" },
    { package := "b", health_score := 20, risk_level := .HIGH, data_quality := some "PARTIAL" },
    { package := "c", health_score := 30, risk_level := .HIGH },
    { package := "d", health_score := 40, risk_level := .LOW, data_quality := some "garbage" },
    { package := "e", health_score := 50, risk_level := .LOW, data_quality := some "" } ]

/-- Oracle for the data-quality scenario: the first chunk carries the five
packages above, later chunks are empty. -/
def dqOracle : List DepEntry → Except ScanError ScanResult :=
  fun c =>
    if c.length = 25 then
      .ok { total := 5, critical := 1, high := 2, medium := 0, low := 2, packages := dqPackages }
    else .ok { total := 0, critical := 0, high := 0, medium := 0, low := 0, packages := [] }

/-- The demo workspace `/home/runner/repo`, as segments. -/
def wsDemo : List String := ["home", "runner", "repo"]

/-- A path whose `realpathSync` fails (dangling symlink). -/
def envUnresolved : PathEnv :=
  { pathExists := true, realPath := none, isFile := false, isDir := false }

/-- A symlink resolving to `/etc/passwd`, outside the demo workspace. -/
def envOutside : PathEnv :=
  { pathExists := true, realPath := some ["etc", "passwd"], isFile := true, isDir := false }

/-- A symlink resolving to a file inside the demo workspace. -/
def envInside : PathEnv :=
  { pathExists := true, realPath := some ["home", "runner", "repo", "package.json"]
    isFile := true, isDir := false }

/-- Package used by the single-chunk witness scenario. -/
def singlePkg : PackageHealth :=
  { package := "lodash", health_score := 90, risk_level := .LOW }

/-- Upstream response used by the single-chunk witness scenario; it satisfies
the aggregation invariant. -/
def singleResult : ScanResult :=
  { total := 1, critical := 0, high := 0, medium := 0, low := 1, packages := [singlePkg] }

/-- The aggregate result for a multi-chunk scan in which every chunk returns
an empty successful response. -/
def aggEmptyExpected : ScanResultWithMeta :=
  { total := 0, critical := 0, high := 0, medium := 0, low := 0, packages := []
    not_found := none
    data_quality := some { verified_count := 0, partial_count := 0, unverified_count := 0 }
    verified_risk_count := some 0
    unverified_risk_count := some 0
    format := "package.json", ecosystem := "npm" }

/-- The aggregate result of the data-quality scenario (`deps26` with
`dqOracle`). -/
def dqExpected : ScanResultWithMeta :=
  { total := 5, critical := 1, high := 2, medium := 0, low := 2, packages := dqPackages
    not_found := none
    data_quality := some { verified_count := 1, partial_count := 1, unverified_count := 3 }
    verified_risk_count := some 1
    unverified_risk_count := some 2
    format := "package.json", ecosystem := "npm" }

/-! ### Chunking lemmas -/

theorem chunksOfAux_nil (n fuel : Nat) : chunksOfAux n fuel [] = [] := by
  cases fuel <;> rfl

theorem chunksOfAux_congr {n : Nat} (hn : 0 < n) :
    ∀ (f₁ f₂ : Nat) (l : List DepEntry), l.length ≤ f₁ → l.length ≤ f₂ →
      chunksOfAux n f₁ l = chunksOfAux n f₂ l := by
  intro f₁
  induction f₁ with
  | zero =>
    intro f₂ l h₁ _
    have hl : l = [] := List.eq_nil_of_length_eq_zero (Nat.le_zero.mp h₁)
    subst hl
    simp [chunksOfAux_nil]
  | succ f ih =>
    intro f₂ l h₁ h₂
    cases l with
    | nil => simp [chunksOfAux_nil]
    | cons x xs =>
      cases f₂ with
      | zero => simp at h₂
      | succ f' =>
        show ((x :: xs).take n) :: chunksOfAux n f ((x :: xs).drop n) =
          ((x :: xs).take n) :: chunksOfAux n f' ((x :: xs).drop n)
        have hlen : ((x :: xs).drop n).length ≤ xs.length := by
          simp only [List.length_drop, List.length_cons]
          omega
        have h₁' : ((x :: xs).drop n).length ≤ f := le_trans hlen (by
          simp only [List.length_cons] at h₁; omega)
        have h₂' : ((x :: xs).drop n).length ≤ f' := le_trans hlen (by
          simp only [List.length_cons] at h₂; omega)
        rw [ih _ _ h₁' h₂']

theorem chunksOf_cons {n : Nat} (hn : 0 < n) (x : DepEntry) (xs : List DepEntry) :
    chunksOf n (x :: xs) = ((x :: xs).take n) :: chunksOf n ((x :: xs).drop n) := by
  show chunksOfAux n (xs.length + 1) (x :: xs) =
    ((x :: xs).take n) :: chunksOfAux n ((x :: xs).drop n).length ((x :: xs).drop n)
  show ((x :: xs).take n) :: chunksOfAux n xs.length ((x :: xs).drop n) =
    ((x :: xs).take n) :: chunksOfAux n ((x :: xs).drop n).length ((x :: xs).drop n)
  have hlen : ((x :: xs).drop n).length ≤ xs.length := by
    simp only [List.length_drop, List.length_cons]
    omega
  rw [chunksOfAux_congr hn _ _ _ hlen (le_refl _)]

theorem chunksOf_small {n : Nat} {l : List DepEntry} (h0 : 0 < l.length)
    (hle : l.length ≤ n) : chunksOf n l = [l] := by
  cases l with
  | nil => simp at h0
  | cons x xs =>
    have hn : 0 < n := lt_of_lt_of_le h0 hle
    rw [chunksOf_cons hn]
    rw [List.take_of_length_le hle, List.drop_eq_nil_of_le hle]
    rfl

theorem chunksOf_flatten {n : Nat} (hn : 0 < n) :
    ∀ l : List DepEntry, (chunksOf n l).flatten = l := by
  have aux : ∀ (fuel : Nat) (l : List DepEntry), l.length ≤ fuel →
      (chunksOfAux n fuel l).flatten = l := by
    intro fuel
    induction fuel with
    | zero =>
      intro l h
      have hl : l = [] := List.eq_nil_of_length_eq_zero (Nat.le_zero.mp h)
      subst hl
      rfl
    | succ f ih =>
      intro l h
      cases l with
      | nil => rfl
      | cons x xs =>
        show (((x :: xs).take n) :: chunksOfAux n f ((x :: xs).drop n)).flatten = x :: xs
        rw [List.flatten_cons]
        rw [ih _ (by simp only [List.length_drop, List.length_cons] at *; omega)]
        exact List.take_append_drop n (x :: xs)
  intro l
  exact aux l.length l (le_refl _)

theorem chunksOf_length_le {n : Nat} :
    ∀ (l : List DepEntry) (c : List DepEntry), c ∈ chunksOf n l → c.length ≤ n := by
  have aux : ∀ (fuel : Nat) (l c : List DepEntry), c ∈ chunksOfAux n fuel l →
      c.length ≤ n := by
    intro fuel
    induction fuel with
    | zero =>
      intro l c h
      simp [chunksOfAux] at h
    | succ f ih =>
      intro l c h
      cases l with
      | nil => simp [chunksOfAux] at h
      | cons x xs =>
        rw [show chunksOfAux n (f + 1) (x :: xs) =
          ((x :: xs).take n) :: chunksOfAux n f ((x :: xs).drop n) from rfl] at h
        rcases List.mem_cons.mp h with h | h
        · subst h
          simp [List.length_take]
        · exact ih _ _ h
  intro l c h
  exact aux l.length l c h

theorem chunksOf_thirty (l : List DepEntry) (h : l.length = 30) :
    chunksOf 25 l = [l.take 25, l.drop 25] := by
  cases l with
  | nil => simp at h
  | cons x xs =>
    rw [chunksOf_cons (by omega)]
    have hlen : ((x :: xs).drop 25).length = 5 := by
      simp only [List.length_drop, h]
    rw [chunksOf_small (by omega) (by omega)]

/-! ### Batch-loop lemmas -/

theorem processChunks_all_ok (oracle : List DepEntry → Except ScanError ScanResult) :
    ∀ cs : List (List DepEntry), (∀ c ∈ cs, chunkOutcomeOk oracle c = true) →
      processChunks oracle cs =
        .ok ((cs.map (chunkPackages oracle)).flatten,
             (cs.map (chunkNotFound oracle)).flatten,
             cs.countP (fun c => isErrorOutcome (oracle c))) := by
  intro cs
  induction cs with
  | nil => intro _; rfl
  | cons c cs ih =>
    intro h
    have hc := h c (List.mem_cons_self c cs)
    have hrest := ih (fun c' hc' => h c' (List.mem_cons_of_mem c hc'))
    unfold processChunks
    cases hoc : oracle c with
    | ok r =>
      rw [hrest]
      simp [chunkPackages, chunkNotFound, isErrorOutcome, hoc, List.countP_cons]
    | error e =>
      unfold chunkOutcomeOk at hc
      rw [hoc] at hc
      simp only [Bool.not_eq_true'] at hc
      simp only [hc, if_false, Bool.false_eq_true, hrest]
      simp [chunkPackages, chunkNotFound, isErrorOutcome, hoc, List.countP_cons, hc]

theorem issuedChunks_all_ok (oracle : List DepEntry → Except ScanError ScanResult) :
    ∀ cs : List (List DepEntry), (∀ c ∈ cs, chunkOutcomeOk oracle c = true) →
      issuedChunks oracle cs = cs := by
  intro cs
  induction cs with
  | nil => intro _; rfl
  | cons c cs ih =>
    intro h
    have hc := h c (List.mem_cons_self c cs)
    have hrest := ih (fun c' hc' => h c' (List.mem_cons_of_mem c hc'))
    unfold issuedChunks
    cases hoc : oracle c with
    | ok r => rw [hrest]
    | error e =>
      unfold chunkOutcomeOk at hc
      rw [hoc] at hc
      simp only [Bool.not_eq_true'] at hc
      simp [hc, hrest]

theorem processChunks_fatal (oracle : List DepEntry → Except ScanError ScanResult)
    (e : ScanError) (he : isFatalError e = true) :
    ∀ (cs₁ : List (List DepEntry)) (c : List DepEntry) (cs₂ : List (List DepEntry)),
      (∀ c' ∈ cs₁, chunkOutcomeOk oracle c' = true) → oracle c = .error e →
      processChunks oracle (cs₁ ++ c :: cs₂) = .error e ∧
      issuedChunks oracle (cs₁ ++ c :: cs₂) = cs₁ ++ [c] := by
  intro cs₁
  induction cs₁ with
  | nil =>
    intro c cs₂ _ hc
    refine ⟨?_, ?_⟩
    · show processChunks oracle (c :: cs₂) = .error e
      unfold processChunks
      rw [hc]
      simp [he]
    · show issuedChunks oracle (c :: cs₂) = [c]
      unfold issuedChunks
      rw [hc]
      simp [he]
  | cons c' cs₁ ih =>
    intro c cs₂ h hc
    have hc' := h c' (List.mem_cons_self c' cs₁)
    obtain ⟨hp, hi⟩ := ih c cs₂ (fun x hx => h x (List.mem_cons_of_mem c' hx)) hc
    refine ⟨?_, ?_⟩
    · show processChunks oracle (c' :: (cs₁ ++ c :: cs₂)) = .error e
      unfold processChunks
      cases hoc : oracle c' with
      | ok r => rw [hp]
      | error e' =>
        unfold chunkOutcomeOk at hc'
        rw [hoc] at hc'
        simp only [Bool.not_eq_true'] at hc'
        simp [hc', hp]
    · show issuedChunks oracle (c' :: (cs₁ ++ c :: cs₂)) = c' :: (cs₁ ++ [c])
      unfold issuedChunks
      cases hoc : oracle c' with
      | ok r => rw [hi]
      | error e' =>
        unfold chunkOutcomeOk at hc'
        rw [hoc] at hc'
        simp only [Bool.not_eq_true'] at hc'
        simp [hc', hi]

/-! ### Aggregation lemmas -/

theorem riskFilter_partition : ∀ pkgs : List PackageHealth,
    (pkgs.filter (fun p => p.risk_level == RiskLevel.CRITICAL)).length +
      (pkgs.filter (fun p => p.risk_level == RiskLevel.HIGH)).length +
      (pkgs.filter (fun p => p.risk_level == RiskLevel.MEDIUM)).length +
      (pkgs.filter (fun p => p.risk_level == RiskLevel.LOW)).length = pkgs.length := by
  intro pkgs
  induction pkgs with
  | nil => rfl
  | cons p ps ih =>
    cases h : p.risk_level <;>
      simp only [List.filter_cons, h, List.length_cons] <;>
      simp <;> omega

theorem aggregate_invariant (pkgs : List PackageHealth) (notFound : List String)
    (fmt eco : String) : aggInvariant (aggregate pkgs notFound fmt eco).toScanResult := by
  constructor
  · exact (riskFilter_partition pkgs).symm
  · rfl

theorem foldl_dqStep_eq : ∀ (pkgs : List PackageHealth) (s : DQState),
    pkgs.foldl dqStep s =
      { verifiedCount := s.verifiedCount + pkgs.countP pVer
        partialCount := s.partialCount + pkgs.countP pPar
        unverifiedCount := s.unverifiedCount + pkgs.countP pUnv
        verifiedRiskCount := s.verifiedRiskCount +
          pkgs.countP (fun p => pVer p && isHighRisk p)
        unverifiedRiskCount := s.unverifiedRiskCount +
          pkgs.countP (fun p => !(pVer p) && isHighRisk p) } := by
  intro pkgs
  induction pkgs with
  | nil => intro s; simp
  | cons p ps ih =>
    intro s
    rw [List.foldl_cons, ih]
    unfold dqStep
    by_cases hv : effAssessment p = "VERIFIED"
    · by_cases hr : isHighRisk p <;>
        simp [List.countP_cons, pVer, pPar, pUnv, hv, hr, DQState.mk.injEq] <;> omega
    · by_cases hp : effAssessment p = "PARTIAL"
      · by_cases hr : isHighRisk p <;>
          simp [List.countP_cons, pVer, pPar, pUnv, hv, hp, hr, DQState.mk.injEq] <;> omega
      · by_cases hr : isHighRisk p <;>
          simp [List.countP_cons, pVer, pPar, pUnv, hv, hp, hr, DQState.mk.injEq] <;> omega

theorem dqCounts_eq (pkgs : List PackageHealth) :
    dqCounts pkgs =
      { verifiedCount := pkgs.countP pVer
        partialCount := pkgs.countP pPar
        unverifiedCount := pkgs.countP pUnv
        verifiedRiskCount := pkgs.countP (fun p => pVer p && isHighRisk p)
        unverifiedRiskCount := pkgs.countP (fun p => !(pVer p) && isHighRisk p) } := by
  unfold dqCounts
  rw [foldl_dqStep_eq]
  simp

theorem pVer_eq (p : PackageHealth) : pVer p = (p.data_quality == some "VERIFIED") := by
  unfold pVer effAssessment
  cases p.data_quality with
  | none => simp
  | some a =>
    by_cases h : a = ""
    · subst h; simp
    · simp [h]

theorem pPar_eq (p : PackageHealth) : pPar p = (p.data_quality == some "PARTIAL") := by
  unfold pPar effAssessment
  cases p.data_quality with
  | none => simp
  | some a =>
    by_cases h : a = ""
    · subst h; simp
    · simp [h]

theorem pUnv_eq (p : PackageHealth) : pUnv p = countedUnverified p := by
  unfold pUnv countedUnverified
  rw [pVer_eq, pPar_eq]
  cases p.data_quality with
  | none => simp
  | some a => simp

/-! ### Path-validation lemmas -/

theorem dropCommon_fst_nil_iff : ∀ ws rp : List String,
    (dropCommon ws rp).1 = [] ↔ ws.isPrefixOf rp = true := by
  intro ws
  induction ws with
  | nil => intro rp; simp [dropCommon, List.isPrefixOf]
  | cons a as ih =>
    intro rp
    cases rp with
    | nil => simp [dropCommon, List.isPrefixOf]
    | cons b bs =>
      by_cases hab : a = b
      · subst hab
        simp [dropCommon, List.isPrefixOf, ih bs]
      · simp [dropCommon, List.isPrefixOf, hab]

theorem joinSegs_dotdot_startsWith : ∀ l : List String,
    jsStartsWith (joinSegs (".." :: l)) ".." = true := by
  intro l
  cases l with
  | nil => decide
  | cons s t =>
    show jsStartsWith (".." ++ "/" ++ joinSegs (s :: t)) ".." = true
    unfold jsStartsWith
    rw [String.data_append, String.data_append]
    rw [List.append_assoc, List.isPrefixOf_iff_prefix]
    exact List.prefix_append _ _

theorem nodeRelative_outside {ws rp : List String} (h : ws.isPrefixOf rp = false) :
    jsStartsWith (nodeRelative ws rp) ".." = true := by
  show jsStartsWith
    (joinSegs ((dropCommon ws rp).1.map (fun _ => "..") ++ (dropCommon ws rp).2)) ".." = true
  cases hf : (dropCommon ws rp).1 with
  | nil =>
    rw [(dropCommon_fst_nil_iff ws rp).mp hf] at h
    exact absurd h (by simp)
  | cons f fs =>
    simp only [List.map_cons, List.cons_append]
    exact joinSegs_dotdot_startsWith _

theorem validatePath_ok_within {ws : List String} {env : PathEnv} {rp : List String}
    (h : validatePath ws env = .ok rp) :
    ws.isPrefixOf rp = true ∧ env.realPath = some rp := by
  unfold validatePath at h
  split at h
  · simp at h
  · split at h
    · simp at h
    · next rp' henv =>
      split at h
      · simp at h
      · next hguard =>
        have hrp : rp' = rp := by
          split at h
          · exact Except.ok.inj h
          · split at h
            · exact Except.ok.inj h
            · simp at h
        subst hrp
        refine ⟨?_, henv⟩
        by_contra hpre
        have hpre' : ws.isPrefixOf rp' = false := by
          cases hip : ws.isPrefixOf rp'
          · rfl
          · exact absurd hip hpre
        have hdots := nodeRelative_outside hpre'
        simp [hdots] at hguard

/-! ### Executor lemmas -/

theorem runAttempts_persistent (outcome : Nat → AttemptOutcome) (f : FailureKind)
    (hout : ∀ i, outcome i = .failure f) (hret : isRetryable (classifyError f) = true) :
    ∀ (r a : Nat), runAttempts outcome a r = (r + 1, some (classifyError f)) := by
  intro r
  induction r with
  | zero =>
    intro a
    unfold runAttempts
    rw [hout a]
  | succ r ih =>
    intro a
    unfold runAttempts
    rw [hout a]
    simp only [hret, if_true]
    rw [ih (a + 1)]

theorem nonretryable_4xx {s : Nat} (h4 : 400 ≤ s) (h5 : s < 500) (h429 : s ≠ 429) :
    isRetryable (classifyError (.status s)) = false := by
  simp only [classifyError]
  split_ifs with h1 h2 h3 hx hy <;> first
    | rfl
    | omega

/-! ### Claim theorems -/

/-- Claim C8: for an empty dependency mapping, `scanDependencies` returns a
zero-valued `ScanResult` (total 0, all severity counts 0, empty package
list) immediately, and issues zero network calls. -/
theorem C8_empty_mapping :
    ∀ (oracle : List DepEntry → Except ScanError ScanResult) (fmt eco : String),
      scanDependencies [] oracle fmt eco =
        .ok { total := 0, critical := 0, high := 0, medium := 0, low := 0, packages := []
              format := fmt, ecosystem := eco } ∧
      scanCalls [] oracle = [] :=
  fun _ _ _ => ⟨rfl, rfl⟩

/-- Claim C4: the error classifier is total and exhaustive: 400 maps to
`invalid_request`, 401 to `unauthorized`, 403 to `forbidden`, 404 to
`not_found`, 429 to `rate_limited`, any 5xx to `server_error`, absence of
a response to `network_error`, a timeout abort to `timeout`, and any
other 4xx (e.g. 418) to `unknown_error`; every input gets exactly one
code, and the classifier (a total function) never throws. -/
theorem C4_classifier_total_mapping :
    classifyError (.status 400) = .invalid_request ∧
    classifyError (.status 401) = .unauthorized ∧
    classifyError (.status 403) = .forbidden ∧
    classifyError (.status 404) = .not_found ∧
    classifyError (.status 429) = .rate_limited ∧
    (∀ s : Nat, 500 ≤ s → s ≤ 599 → classifyError (.status s) = .server_error) ∧
    classifyError .noResponse = .network_error ∧
    classifyError .aborted = .timeout ∧
    (∀ s : Nat, 400 ≤ s → s < 500 →
      s ≠ 400 → s ≠ 401 → s ≠ 403 → s ≠ 404 → s ≠ 429 →
      classifyError (.status s) = .unknown_error) ∧
    (∀ inp : FailureKind, ∃! code : ErrorCode, classifyError inp = code) := by
  refine ⟨rfl, rfl, rfl, rfl, rfl, ?_, rfl, rfl, ?_, ?_⟩
  · intro s h5 _
    simp only [classifyError]
    split_ifs <;> first
      | rfl
      | omega
  · intro s h4 h5 hn1 hn2 hn3 hn4 hn5
    simp only [classifyError]
    split_ifs <;> first
      | rfl
      | omega
  · intro inp
    exact ⟨classifyError inp, rfl, fun c h => h.symm⟩

/-- Witness for C4 at concrete inputs: 502 is a 5xx and classifies as
`server_error`; 418 is an unlisted 4xx and classifies as `unknown_error`. -/
theorem C4_classifier_total_mapping_witness :
    classifyError (.status 502) = .server_error ∧
    classifyError (.status 418) = .unknown_error := by
  constructor
  · exact C4_classifier_total_mapping.2.2.2.2.2.1 502 (by decide) (by decide)
  · exact C4_classifier_total_mapping.2.2.2.2.2.2.2.2.1 418 (by decide) (by decide)
      (by decide) (by decide) (by decide) (by decide) (by decide)

/-- Claim C3: with `maxRetries = 3` and a persistently failing retryable
outcome, the executor performs exactly 4 attempts (1 initial + 3 retries)
and then fails with the classified error; for a non-retryable status
(400, 401, 403, 404, or any other 4xx) it performs exactly 1 attempt and
never retries. -/
theorem C3_retry_attempt_counts :
    ∀ outcome : Nat → AttemptOutcome,
      (∀ f : FailureKind, (∀ i, outcome i = .failure f) →
        isRetryable (classifyError f) = true →
        execute outcome 3 = (4, some (classifyError f))) ∧
      (∀ s : Nat, outcome 0 = .failure (.status s) →
        400 ≤ s → s < 500 → s ≠ 429 →
        execute outcome 3 = (1, some (classifyError (.status s)))) := by
  intro outcome
  constructor
  · intro f hout hret
    exact runAttempts_persistent outcome f hout hret 3 0
  · intro s h0 h4 h5 h429
    have hnr := nonretryable_4xx h4 h5 h429
    unfold execute
    unfold runAttempts
    rw [h0]
    simp [hnr]

/-- Witness for C3: a persistent 500 costs 4 attempts; a single 404 costs
exactly 1 attempt. -/
theorem C3_retry_attempt_counts_witness :
    execute (fun _ => .failure (.status 500)) 3 = (4, some (classifyError (.status 500))) ∧
    execute (fun _ => .failure (.status 404)) 3 = (1, some (classifyError (.status 404))) := by
  constructor
  · exact (C3_retry_attempt_counts (fun _ => .failure (.status 500))).1 (.status 500)
      (fun _ => rfl) (by decide)
  · exact (C3_retry_attempt_counts (fun _ => .failure (.status 404))).2 404 rfl
      (by decide) (by decide) (by decide)

/-- Counterexample to claim C1 as stated: the single-chunk path returns the
upstream response without recomputation, so when the upstream response
reports `total` 20 with an empty package list (the exact response mocked
by the repository's own "does not batch when <= 25 packages" test), the
returned `ScanResult` violates the aggregation invariant. -/
theorem C1_counterexample :
    (scanDependencies smallDeps badOracle "package.json" "npm").map
      (fun r => decide (aggInvariant r.toScanResult)) = .ok false := by
  decide

/-- Claim C1 (amended): the aggregation invariant
`total = critical + high + medium + low = length(packages)` holds for
every `ScanResult` that `scanDependencies` computes itself — the
empty-mapping result and every multi-chunk aggregated result; the
single-chunk path returns the upstream response unchanged, so its result
satisfies the invariant whenever the upstream response does. -/
theorem C1_aggregation_invariant :
    (∀ (oracle : List DepEntry → Except ScanError ScanResult) (fmt eco : String)
        (r : ScanResultWithMeta),
      scanDependencies [] oracle fmt eco = .ok r → aggInvariant r.toScanResult) ∧
    (∀ (deps : List DepEntry) (oracle : List DepEntry → Except ScanError ScanResult)
        (fmt eco : String) (r : ScanResultWithMeta),
      BATCH_SIZE < deps.length →
      scanDependencies deps oracle fmt eco = .ok r → aggInvariant r.toScanResult) ∧
    (∀ (deps : List DepEntry) (oracle : List DepEntry → Except ScanError ScanResult)
        (fmt eco : String) (u : ScanResult) (r : ScanResultWithMeta),
      deps.length ≤ BATCH_SIZE → oracle deps = .ok u → aggInvariant u →
      scanDependencies deps oracle fmt eco = .ok r → aggInvariant r.toScanResult) := by
  refine ⟨?_, ?_, ?_⟩
  · intro oracle fmt eco r h
    unfold scanDependencies at h
    simp only [List.length_nil, if_pos] at h
    have hr := Except.ok.inj h
    rw [← hr]
    exact ⟨rfl, rfl⟩
  · intro deps oracle fmt eco r hlen h
    have h25 : 25 < deps.length := by simpa [BATCH_SIZE] using hlen
    unfold scanDependencies at h
    rw [if_neg (by omega), if_neg (by simp only [BATCH_SIZE]; omega)] at h
    cases hpc : processChunks oracle (chunksOf BATCH_SIZE deps) with
    | error e => rw [hpc] at h; simp at h
    | ok t =>
      obtain ⟨ps, nf, k⟩ := t
      rw [hpc] at h
      have hr := Except.ok.inj h
      rw [← hr]
      exact aggregate_invariant ps nf fmt eco
  · intro deps oracle fmt eco u r hle hu hinv h
    unfold scanDependencies at h
    by_cases hz : deps.length = 0
    · rw [if_pos hz] at h
      have hr := Except.ok.inj h
      rw [← hr]
      exact ⟨rfl, rfl⟩
    · rw [if_neg hz, if_pos hle, hu] at h
      have hr := Except.ok.inj h
      rw [← hr]
      exact hinv

/-- Witness for the amended C1: the empty path, a multi-chunk scan whose
chunks return empty results, and a single-chunk scan whose upstream
response satisfies the invariant. -/
theorem C1_aggregation_invariant_witness :
    aggInvariant (ScanResultWithMeta.toScanResult
      { total := 0, critical := 0, high := 0, medium := 0, low := 0, packages := []
        format := "package.json", ecosystem := "npm" }) ∧
    aggInvariant aggEmptyExpected.toScanResult ∧
    aggInvariant (ScanResultWithMeta.toScanResult
      { singleResult with format := "package.json", ecosystem := "npm" }) := by
  refine ⟨?_, ?_, ?_⟩
  · exact C1_aggregation_invariant.1 emptyOkOracle "package.json" "npm" _ rfl
  · exact C1_aggregation_invariant.2.1 deps26 emptyOkOracle "package.json" "npm"
      aggEmptyExpected (by decide) (by decide)
  · exact C1_aggregation_invariant.2.2 [("lodash", "^4.0.0")] (fun _ => .ok singleResult)
      "package.json" "npm" singleResult _ (by decide) rfl (by decide) rfl

/-- Counterexample to claim C6 as stated: a single-chunk failure that is not
an `ApiClientError` does not propagate unchanged — `scanner.ts` rethrows
it as a new error with a `Failed to scan dependencies:` context prefix. -/
theorem C6_counterexample :
    failOracle smallDeps = .error (.other "boom") ∧
    scanDependencies smallDeps failOracle "package.json" "npm" =
      .error (.other "Failed to scan dependencies: boom") ∧
    ScanError.other "Failed to scan dependencies: boom" ≠ ScanError.other "boom" := by
  refine ⟨rfl, by decide, by decide⟩

/-- Claim C6 (amended): for a mapping within one chunk's capacity,
`scanDependencies` issues exactly one request and returns its result
directly augmented with passthrough metadata; an `ApiClientError`
propagates unchanged, while any other failure is rethrown wrapped with a
`Failed to scan dependencies:` context message. No partial-result
suppression occurs. -/
theorem C6_single_chunk_propagation :
    ∀ (deps : List DepEntry) (oracle : List DepEntry → Except ScanError ScanResult)
      (fmt eco : String),
      0 < deps.length → deps.length ≤ BATCH_SIZE →
      scanCalls deps oracle = [deps] ∧
      (∀ u, oracle deps = .ok u →
        scanDependencies deps oracle fmt eco =
          .ok { u with format := fmt, ecosystem := eco }) ∧
      (∀ code m, oracle deps = .error (.api code m) →
        scanDependencies deps oracle fmt eco = .error (.api code m)) ∧
      (∀ m, oracle deps = .error (.other m) →
        scanDependencies deps oracle fmt eco =
          .error (.other ("Failed to scan dependencies: " ++ m))) := by
  intro deps oracle fmt eco h0 hle
  refine ⟨?_, ?_, ?_, ?_⟩
  · unfold scanCalls
    rw [if_neg (by omega), if_pos hle]
  · intro u hu
    unfold scanDependencies
    rw [if_neg (by omega), if_pos hle, hu]
  · intro code m hm
    unfold scanDependencies
    rw [if_neg (by omega), if_pos hle, hm]
  · intro m hm
    unfold scanDependencies
    rw [if_neg (by omega), if_pos hle, hm]

/-- Witness for the amended C6 at a one-entry mapping: exactly one call; a
success returned with metadata; an `ApiClientError` unchanged; another
error wrapped. -/
theorem C6_single_chunk_propagation_witness :
    scanCalls [("lodash", "^4.0.0")] (fun _ => .ok singleResult) = [[("lodash", "^4.0.0")]] ∧
    scanDependencies [("lodash", "^4.0.0")] (fun _ => .ok singleResult) "package.json" "npm" =
      .ok { singleResult with format := "package.json", ecosystem := "npm" } ∧
    scanDependencies [("lodash", "^4.0.0")] (fun _ => .error (.api .not_found "Package not found"))
        "package.json" "npm" = .error (.api .not_found "Package not found") ∧
    scanDependencies [("lodash", "^4.0.0")] (fun _ => .error (.other "boom"))
        "package.json" "npm" =
      .error (.other ("Failed to scan dependencies: " ++ "boom")) := by
  refine ⟨?_, ?_, ?_, ?_⟩
  · exact (C6_single_chunk_propagation [("lodash", "^4.0.0")] (fun _ => .ok singleResult)
      "package.json" "npm" (by decide) (by decide)).1
  · exact (C6_single_chunk_propagation [("lodash", "^4.0.0")] (fun _ => .ok singleResult)
      "package.json" "npm" (by decide) (by decide)).2.1 singleResult rfl
  · exact (C6_single_chunk_propagation [("lodash", "^4.0.0")]
      (fun _ => .error (.api .not_found "Package not found"))
      "package.json" "npm" (by decide) (by decide)).2.2.1 .not_found "Package not found" rfl
  · exact (C6_single_chunk_propagation [("lodash", "^4.0.0")] (fun _ => .error (.other "boom"))
      "package.json" "npm" (by decide) (by decide)).2.2.2 "boom" rfl

/-- Claim C2: in a multi-chunk scan, a chunk failing with classified code
`rate_limited`, `unauthorized` or `forbidden` aborts the scan immediately
and propagates that error, and later chunks are never requested; any
other chunk failure is recorded and the loop continues, and when every
chunk outcome is continuable the scan returns a `ScanResult` successfully
while the failed chunks are reported only out-of-band as the warning
count `scanWarn`. -/
theorem C2_chunk_failure_policy :
    ∀ (deps : List DepEntry) (oracle : List DepEntry → Except ScanError ScanResult)
      (fmt eco : String),
      BATCH_SIZE < deps.length →
      (∀ (cs₁ : List (List DepEntry)) (c : List DepEntry) (cs₂ : List (List DepEntry))
          (code : ErrorCode) (m : String),
        chunksOf BATCH_SIZE deps = cs₁ ++ c :: cs₂ →
        (∀ c' ∈ cs₁, chunkOutcomeOk oracle c' = true) →
        oracle c = .error (.api code m) →
        (code = .rate_limited ∨ code = .unauthorized ∨ code = .forbidden) →
        scanDependencies deps oracle fmt eco = .error (.api code m) ∧
        scanCalls deps oracle = cs₁ ++ [c]) ∧
      ((∀ c ∈ chunksOf BATCH_SIZE deps, chunkOutcomeOk oracle c = true) →
        (∃ r, scanDependencies deps oracle fmt eco = .ok r) ∧
        scanWarn deps oracle =
          (chunksOf BATCH_SIZE deps).countP (fun c => isErrorOutcome (oracle c))) := by
  intro deps oracle fmt eco hlen
  have h25 : 25 < deps.length := by simpa [BATCH_SIZE] using hlen
  constructor
  · intro cs₁ c cs₂ code m heq hok hc hcode
    have hfatal : isFatalError (.api code m) = true := by
      unfold isFatalError
      rcases hcode with h | h | h <;> simp [h]
    obtain ⟨hp, hi⟩ := processChunks_fatal oracle (.api code m) hfatal cs₁ c cs₂ hok hc
    constructor
    · unfold scanDependencies
      rw [if_neg (by omega), if_neg (by simp only [BATCH_SIZE]; omega), heq, hp]
    · unfold scanCalls
      rw [if_neg (by omega), if_neg (by simp only [BATCH_SIZE]; omega), heq, hi]
  · intro hok
    have hpc := processChunks_all_ok oracle (chunksOf BATCH_SIZE deps) hok
    constructor
    · refine ⟨aggregate ((chunksOf BATCH_SIZE deps).map (chunkPackages oracle)).flatten
        ((chunksOf BATCH_SIZE deps).map (chunkNotFound oracle)).flatten fmt eco, ?_⟩
      unfold scanDependencies
      rw [if_neg (by omega), if_neg (by simp only [BATCH_SIZE]; omega), hpc]
    · unfold scanWarn
      rw [if_neg (by omega), if_neg (by simp only [BATCH_SIZE]; omega), hpc]

/-- Witness for C2: the 30-dependency scenario with a `rate_limited` second
chunk aborts after issuing both chunk requests and propagates the error;
with a `server_error` second chunk the scan still succeeds and reports
one failed chunk out-of-band. -/
theorem C2_chunk_failure_policy_witness :
    (scanDependencies demoDeps fatalOracle "package.json" "npm" =
        .error (.api .rate_limited "Rate limited") ∧
      scanCalls demoDeps fatalOracle = [demoDeps.take 25] ++ [demoDeps.drop 25]) ∧
    ((∃ r, scanDependencies demoDeps mixedOracle "package.json" "npm" = .ok r) ∧
      scanWarn demoDeps mixedOracle =
        (chunksOf BATCH_SIZE demoDeps).countP (fun c => isErrorOutcome (mixedOracle c))) := by
  constructor
  · exact (C2_chunk_failure_policy demoDeps fatalOracle "package.json" "npm" (by decide)).1
      [demoDeps.take 25] (demoDeps.drop 25) [] .rate_limited "Rate limited"
      (by decide) (by decide) (by decide) (Or.inl rfl)
  · exact (C2_chunk_failure_policy demoDeps mixedOracle "package.json" "npm" (by decide)).2
      (by decide)

/-- Claim C5: a mapping larger than the chunk capacity of 25 is partitioned
into consecutive chunks of at most 25 preserving original order (their
concatenation is the original entry list); 30 dependencies yield exactly
the two chunk requests `take 25` and `drop 25`; and in the concrete
30-dependency scenario (chunk 1: 1 CRITICAL, 2 HIGH, 10 MEDIUM, 12 LOW;
chunk 2: 1 HIGH, 2 MEDIUM, 2 LOW) the aggregate is total 30, critical 1,
high 3, medium 12, low 14 — recomputed from the merged package list even
though the per-chunk subtotal fields of `chunk1Result` are bogus. -/
theorem C5_chunk_partition_scenario :
    (∀ l : List DepEntry, (chunksOf BATCH_SIZE l).flatten = l) ∧
    (∀ l c : List DepEntry, c ∈ chunksOf BATCH_SIZE l → c.length ≤ BATCH_SIZE) ∧
    (∀ l : List DepEntry, l.length = 30 → chunksOf BATCH_SIZE l = [l.take 25, l.drop 25]) ∧
    scanCalls demoDeps demoOracle = [demoDeps.take 25, demoDeps.drop 25] ∧
    (scanDependencies demoDeps demoOracle "package.json" "npm").map
      (fun r => (r.total, r.critical, r.high, r.medium, r.low)) = .ok (30, 1, 3, 12, 14) := by
  refine ⟨?_, ?_, ?_, ?_, ?_⟩
  · exact fun l => chunksOf_flatten (by decide) l
  · exact fun l c h => chunksOf_length_le l c h
  · exact fun l h => chunksOf_thirty l h
  · decide
  · decide

/-- Witness for C5 at the 30-dependency scenario: its first chunk is a member
of the partition and respects the capacity bound, and the partition is
exactly the two slices. -/
theorem C5_chunk_partition_scenario_witness :
    (demoDeps.take 25).length ≤ BATCH_SIZE ∧
    chunksOf BATCH_SIZE demoDeps = [demoDeps.take 25, demoDeps.drop 25] := by
  constructor
  · exact C5_chunk_partition_scenario.2.1 demoDeps (demoDeps.take 25) (by decide)
  · exact C5_chunk_partition_scenario.2.2.1 demoDeps (by decide)

/-- Counterexample to claim C9 as stated: the aggregate `not_found` list is
not deduplicated — when both chunks of a 30-dependency scan report the
same missing package name, the aggregate contains it twice. -/
theorem C9_counterexample :
    (scanDependencies demoDeps dupOracle "package.json" "npm").map (fun r => r.not_found) =
      .ok (some ["dup-pkg", "dup-pkg"]) ∧
    ¬ (["dup-pkg", "dup-pkg"] : List String).Nodup := by
  refine ⟨by decide, by decide⟩

/-- Claim C9 (amended): the aggregate `not_found` list is the concatenation
of the chunks' `not_found` lists in chunk order (omitted when empty);
duplicate names across chunks are preserved, not deduplicated. -/
theorem C9_not_found_concatenation :
    ∀ (deps : List DepEntry) (oracle : List DepEntry → Except ScanError ScanResult)
      (fmt eco : String),
      BATCH_SIZE < deps.length →
      (∀ c ∈ chunksOf BATCH_SIZE deps, chunkOutcomeOk oracle c = true) →
      (scanDependencies deps oracle fmt eco).map (fun r => r.not_found) =
        .ok (if ((chunksOf BATCH_SIZE deps).map (chunkNotFound oracle)).flatten.length > 0
             then some ((chunksOf BATCH_SIZE deps).map (chunkNotFound oracle)).flatten
             else none) := by
  intro deps oracle fmt eco hlen hok
  have h25 : 25 < deps.length := by simpa [BATCH_SIZE] using hlen
  have hpc := processChunks_all_ok oracle (chunksOf BATCH_SIZE deps) hok
  unfold scanDependencies
  rw [if_neg (by omega), if_neg (by simp only [BATCH_SIZE]; omega), hpc]
  rfl

/-- Witness for the amended C9: in the duplicated-name scenario the
concatenation keeps both occurrences. -/
theorem C9_not_found_concatenation_witness :
    (scanDependencies demoDeps dupOracle "package.json" "npm").map (fun r => r.not_found) =
      .ok (if ((chunksOf BATCH_SIZE demoDeps).map (chunkNotFound dupOracle)).flatten.length > 0
           then some ((chunksOf BATCH_SIZE demoDeps).map (chunkNotFound dupOracle)).flatten
           else none) := by
  exact C9_not_found_concatenation demoDeps dupOracle "package.json" "npm"
    (by decide) (by decide)

/-- The data-quality fields of an aggregate, re-expressed as filters of the
merged package list by spec-side predicates. -/
theorem aggregate_dq_fields (pkgs : List PackageHealth) (nf : List String) (fmt eco : String) :
    (aggregate pkgs nf fmt eco).data_quality = some
      { verified_count :=
          (pkgs.filter (fun p => p.data_quality == some "VERIFIED")).length
        partial_count :=
          (pkgs.filter (fun p => p.data_quality == some "PARTIAL")).length
        unverified_count := (pkgs.filter countedUnverified).length } ∧
    (aggregate pkgs nf fmt eco).verified_risk_count =
      some ((pkgs.filter (fun p => p.data_quality == some "VERIFIED" && isHighRisk p)).length) ∧
    (aggregate pkgs nf fmt eco).unverified_risk_count =
      some ((pkgs.filter
        (fun p => !(p.data_quality == some "VERIFIED") && isHighRisk p)).length) := by
  have hVf : pVer = (fun p : PackageHealth => p.data_quality == some "VERIFIED") :=
    funext pVer_eq
  have hPf : pPar = (fun p : PackageHealth => p.data_quality == some "PARTIAL") :=
    funext pPar_eq
  have hUf : pUnv = countedUnverified := funext pUnv_eq
  have hVR : (fun p : PackageHealth => pVer p && isHighRisk p) =
      (fun p : PackageHealth => p.data_quality == some "VERIFIED" && isHighRisk p) := by
    funext p
    rw [pVer_eq]
  have hUR : (fun p : PackageHealth => !(pVer p) && isHighRisk p) =
      (fun p : PackageHealth => !(p.data_quality == some "VERIFIED") && isHighRisk p) := by
    funext p
    rw [pVer_eq]
  refine ⟨?_, ?_, ?_⟩ <;>
    simp only [aggregate, dqCounts_eq, hVf, hPf, hUf, hVR, hUR, List.countP_eq_length_filter]

/-- Claim C7: in multi-chunk aggregation, a package with a missing or
unrecognized data-quality assessment counts as UNVERIFIED;
`verified_risk_count` is the number of VERIFIED packages whose risk level
is HIGH or CRITICAL, and `unverified_risk_count` is the number of
PARTIAL-or-UNVERIFIED (i.e. not VERIFIED) packages whose risk level is
HIGH or CRITICAL. -/
theorem C7_data_quality_aggregation :
    ∀ (deps : List DepEntry) (oracle : List DepEntry → Except ScanError ScanResult)
      (fmt eco : String) (r : ScanResultWithMeta),
      BATCH_SIZE < deps.length →
      scanDependencies deps oracle fmt eco = .ok r →
      r.data_quality = some
        { verified_count :=
            (r.packages.filter (fun p => p.data_quality == some "VERIFIED")).length
          partial_count :=
            (r.packages.filter (fun p => p.data_quality == some "PARTIAL")).length
          unverified_count := (r.packages.filter countedUnverified).length } ∧
      r.verified_risk_count =
        some ((r.packages.filter
          (fun p => p.data_quality == some "VERIFIED" && isHighRisk p)).length) ∧
      r.unverified_risk_count =
        some ((r.packages.filter
          (fun p => !(p.data_quality == some "VERIFIED") && isHighRisk p)).length) := by
  intro deps oracle fmt eco r hlen h
  have h25 : 25 < deps.length := by simpa [BATCH_SIZE] using hlen
  unfold scanDependencies at h
  rw [if_neg (by omega), if_neg (by simp only [BATCH_SIZE]; omega)] at h
  cases hpc : processChunks oracle (chunksOf BATCH_SIZE deps) with
  | error e => rw [hpc] at h; simp at h
  | ok t =>
    obtain ⟨ps, nf, k⟩ := t
    rw [hpc] at h
    have hr := Except.ok.inj h
    rw [← hr]
    exact aggregate_dq_fields ps nf fmt eco

/-- Witness for C7: the `deps26`/`dqOracle` scenario, whose five packages
exercise VERIFIED, PARTIAL, a missing assessment, an unrecognized string
and the empty string. -/
theorem C7_data_quality_aggregation_witness :
    dqExpected.data_quality = some
      { verified_count :=
          (dqExpected.packages.filter (fun p => p.data_quality == some "VERIFIED")).length
        partial_count :=
          (dqExpected.packages.filter (fun p => p.data_quality == some "PARTIAL")).length
        unverified_count := (dqExpected.packages.filter countedUnverified).length } ∧
    dqExpected.verified_risk_count =
      some ((dqExpected.packages.filter
        (fun p => p.data_quality == some "VERIFIED" && isHighRisk p)).length) ∧
    dqExpected.unverified_risk_count =
      some ((dqExpected.packages.filter
        (fun p => !(p.data_quality == some "VERIFIED") && isHighRisk p)).length) := by
  exact C7_data_quality_aggregation deps26 dqOracle "package.json" "npm" dqExpected
    (by decide) (by decide)

/-- Claim C10: `scanDependencies` resolves symlinks and throws — without
issuing any network request — when resolution fails or when the resolved
real path lies outside the workspace; it proceeds past the path phase
only when the real path stays within the workspace (the workspace prefix
test on the canonical real path). -/
theorem C10_symlink_workspace_guard :
    ∀ (ws : List String) (env : PathEnv) (deps : List DepEntry)
      (oracle : List DepEntry → Except ScanError ScanResult),
      (env.pathExists = true → env.realPath = none →
        validatePath ws env = .error .cannotResolve ∧
        scanPipelineCalls ws env deps oracle = []) ∧
      (∀ rp : List String, env.pathExists = true → env.realPath = some rp →
        ws.isPrefixOf rp = false →
        validatePath ws env = .error .outsideWorkspace ∧
        scanPipelineCalls ws env deps oracle = []) ∧
      (∀ rp : List String, validatePath ws env = .ok rp →
        ws.isPrefixOf rp = true ∧ env.realPath = some rp) := by
  intro ws env deps oracle
  refine ⟨?_, ?_, ?_⟩
  · intro hex hnone
    have hv : validatePath ws env = .error .cannotResolve := by
      unfold validatePath
      rw [hex, hnone]
      rfl
    refine ⟨hv, ?_⟩
    unfold scanPipelineCalls
    rw [hv]
  · intro rp hex hsome hpre
    have hdots := nodeRelative_outside hpre
    have hv : validatePath ws env = .error .outsideWorkspace := by
      unfold validatePath
      rw [hex, hsome]
      simp [hdots]
    refine ⟨hv, ?_⟩
    unfold scanPipelineCalls
    rw [hv]
  · intro rp h
    exact validatePath_ok_within h

/-- Witness for C10: an unresolvable symlink and a symlink escaping to
`/etc/passwd` are both rejected with no network calls; a resolvable path
accepted by the validator is inside the workspace. -/
theorem C10_symlink_workspace_guard_witness :
    (validatePath wsDemo envUnresolved = .error .cannotResolve ∧
      scanPipelineCalls wsDemo envUnresolved demoDeps demoOracle = []) ∧
    (validatePath wsDemo envOutside = .error .outsideWorkspace ∧
      scanPipelineCalls wsDemo envOutside demoDeps demoOracle = []) ∧
    (wsDemo.isPrefixOf ["home", "runner", "repo", "package.json"] = true ∧
      envInside.realPath = some ["home", "runner", "repo", "package.json"]) := by
  refine ⟨?_, ?_, ?_⟩
  · exact (C10_symlink_workspace_guard wsDemo envUnresolved demoDeps demoOracle).1 rfl rfl
  · exact (C10_symlink_workspace_guard wsDemo envOutside demoDeps demoOracle).2.1
      ["etc", "passwd"] rfl rfl (by decide)
  · exact (C10_symlink_workspace_guard wsDemo envInside demoDeps demoOracle).2.2
      ["home", "runner", "repo", "package.json"] (by decide)

end DepHealth
